import Mathlib

/-!
Verification of the media chunking and frame-serving core of the CVAT
repository (files cvat/apps/engine/cache.py and
cvat/apps/engine/frame_provider.py), as a shallow embedding in Lean 4.

Bytes are modelled as `List Nat`, Python `None` as `Option.none`, raised
exceptions as explicit error constructors.  Database-backed attributes
(models.Task / models.Data / models.Segment) are not part of the sources;
they are modelled from the spec where noted.
-/

namespace Cvat

/-- Frame quality tiers (media_extractors.FrameQuality). -/
inductive FrameQuality
| COMPRESSED
| ORIGINAL
deriving DecidableEq, Repr

/-- Segment types (models.SegmentType). -/
inductive SegmentType
| RANGE
| SPECIFIC_FRAMES
deriving DecidableEq, Repr

/-- Modelled from the spec: the attributes of a task data snapshot
(models.Data, absent from the sources): frame range
`[startFrame, stopFrame]` inclusive, positive `frameStep`, `chunkSize`
(frames per chunk) and `size` (number of frames).  Valid frame ids `f`
satisfy `startFrame ≤ f ≤ stopFrame` and `(f - startFrame) % frameStep = 0`
(spec section 3, invariant 1). -/
structure TaskData where
  startFrame : Nat
  stopFrame : Nat
  frameStep : Nat
  chunkSize : Nat
  size : Nat
deriving DecidableEq, Repr

/-- Modelled from the spec: a segment snapshot (models.Segment, absent from
the sources): owning-task frame ids in `frameSet`, an ordered (ascending)
set of frame ids, arbitrary for SPECIFIC_FRAMES and contiguous under the
frame step for RANGE; `startFrame` is the segment's first frame used as the
sort key of spec section 4.6. -/
structure Segment where
  id : Nat
  segType : SegmentType
  startFrame : Nat
  frameSet : List Nat
deriving DecidableEq, Repr

/-- Error kinds surfaced by the embedded operations: `validationError`
models rest_framework ValidationError (the spec's InvalidArgument),
`notFoundError` models rest_framework NotFound, `assertionError` models a
bare Python assert failure, `valueError` a Python ValueError. -/
inductive PyError
| validationError
| notFoundError
| assertionError
| valueError
deriving DecidableEq, Repr

/-! ## CRC32 (cache checksums)

Modelled from the spec: MediaCache.get_checksum is zlib.crc32 of the bytes;
zlib is external to the sources, so the standard CRC-32 (polynomial
0xEDB88320, initial and final xor 0xFFFFFFFF) is spelled out here. -/

/-- One bit-round of CRC-32: shift right, conditionally xor the reflected
polynomial 0xEDB88320. -/
def crc32Round (c : Nat) : Nat :=
  if c % 2 = 1 then Nat.xor 0xEDB88320 (c / 2) else c / 2

/-- Fold one byte into a CRC-32 accumulator: xor the byte in, then run
eight bit-rounds. -/
def crc32Byte (c b : Nat) : Nat :=
  crc32Round^[8] (Nat.xor c (b % 256))

/-- CRC-32 of a byte sequence (zlib.crc32). -/
def crc32 (data : List Nat) : Nat :=
  Nat.xor 0xFFFFFFFF (data.foldl crc32Byte 0xFFFFFFFF)

/-- MediaCache.get_checksum (cache.py line 61): zlib.crc32 of the value. -/
def getChecksum (value : List Nat) : Nat := crc32 value

/-! ## MediaCache._get_or_set_cache_item (cache.py lines 64-98)

A stored cache entry is the pickled triple `(bytes, mime, checksum)`.
The entry bytes are always a present buffer (`io.BytesIO`); mutation out
of band may change the bytes, and legacy two-element entries are modelled
by `checksum = none` (the code reads `item[2] if len(item) == 3 else None`).
A producer (`create_callback`) returns `(data, mime)` where `data` is
either a present buffer (`some bytes`, possibly empty — an `io.BytesIO`
object is always truthy in Python) or Python `None` (`none`). -/

/-- A cache entry as stored under a key: bytes, MIME, stored checksum. -/
structure CacheEntry where
  data : List Nat
  mime : Option String
  checksum : Option Nat
deriving DecidableEq, Repr

/-- The value returned by a producer callback (a `DataWithMime`):
`data = none` models Python `None` ("no artifact"), `data = some bs`
models a present `io.BytesIO` buffer holding `bs` (possibly empty). -/
structure ProducedData where
  data : Option (List Nat)
  mime : Option String
deriving DecidableEq, Repr

/-- Outcome of one get-or-set call on a single key: the returned
`(data, mime)` pair, the entry stored under the key afterwards, and
whether the producer callback ran (instrumentation of the call trace). -/
structure GetOrSetResult where
  data : Option (List Nat)
  mime : Option String
  stored : Option CacheEntry
  producerRan : Bool
deriving DecidableEq, Repr

/-- The `create_item` inner function of MediaCache._get_or_set_cache_item
(cache.py lines 67-78): run the producer; if the produced buffer is truthy
(a present `io.BytesIO` — Python `if item_data[0]:`), store the triple
`(bytes, mime, crc32 bytes)` under the key; otherwise leave the cache
untouched and return `(data, mime, None)`. -/
def createCacheItem (stored : Option CacheEntry) (producer : ProducedData) :
    GetOrSetResult :=
  match producer.data with
  | some bs =>
      { data := some bs
        mime := producer.mime
        stored := some ⟨bs, producer.mime, some (getChecksum bs)⟩
        producerRan := true }
  | none =>
      { data := none
        mime := producer.mime
        stored := stored
        producerRan := true }

/-- MediaCache._get_or_set_cache_item (cache.py lines 64-98) on a single
key: on a miss (`stored = none`, which also covers an unpickling error)
run `create_item`; on a hit compare the stored checksum against the CRC-32
of the stored bytes and rebuild via `create_item` on mismatch; on a hit
with a matching checksum return the stored `(bytes, mime)` unchanged. -/
def getOrSetCacheItem (stored : Option CacheEntry) (producer : ProducedData) :
    GetOrSetResult :=
  match stored with
  | none => createCacheItem none producer
  | some e =>
      if e.checksum = some (getChecksum e.data) then
        { data := some e.data, mime := e.mime, stored := some e, producerRan := false }
      else
        createCacheItem (some e) producer

/-! ## _ChunkLoader (frame_provider.py lines 41-64) -/

/-- The mutable state of a _ChunkLoader (frame_provider.py lines 41-64):
the current chunk id and the currently open chunk reader, plus a counter
handing out fresh reader handles (instrumentation standing for the
RandomAccessIterator objects the loader opens). -/
structure LoaderState where
  chunkId : Option Nat
  chunkReader : Option Nat
  nextHandle : Nat
deriving DecidableEq, Repr

/-- Events observed on a loader's readers: a reader handle being closed
(released) or a fresh reader being opened. -/
inductive LoaderEvent
| closed (handle : Nat)
| opened (handle : Nat)
deriving DecidableEq, Repr

/-- _ChunkLoader.unload (frame_provider.py lines 57-61): clear the chunk
id; if a reader is held, close and drop it. -/
def loaderUnload (s : LoaderState) : List LoaderEvent × LoaderState :=
  match s.chunkReader with
  | some h => ([.closed h], { s with chunkId := none, chunkReader := none })
  | none => ([], { s with chunkId := none })

/-- _ChunkLoader.load (frame_provider.py lines 47-55): if the requested
chunk id differs from the current one, unload first, then record the new
id and open a fresh reader over the chunk bytes; in all cases return the
held reader.  The result is (events, new state, returned reader). -/
def loaderLoad (s : LoaderState) (chunkId : Nat) :
    List LoaderEvent × LoaderState × Option Nat :=
  if s.chunkId = some chunkId then
    ([], s, s.chunkReader)
  else
    let u := loaderUnload s
    let h := u.2.nextHandle
    (u.1 ++ [.opened h],
     { chunkId := some chunkId, chunkReader := some h, nextHandle := h + 1 },
     some h)

/-! ## Frame and chunk addressing (frame_provider.py) -/

/-- SegmentFrameProvider.validate_frame_number (frame_provider.py lines
406-415): reject a frame number outside the segment frame set with a
ValidationError; otherwise return the frame number together with
divmod(frame_sequence.index(frame_number), chunk_size). -/
def validateFrameNumber (frameSet : List Nat) (chunkSize : Nat) (frameNumber : Nat) :
    Except PyError (Nat × Nat × Nat) :=
  if frameNumber ∈ frameSet then
    .ok (frameNumber, frameSet.indexOf frameNumber / chunkSize,
         frameSet.indexOf frameNumber % chunkSize)
  else
    .error .validationError

/-- TaskFrameProvider.get_chunk_number (frame_provider.py lines 215-216):
frame_number // chunk_size. -/
def taskGetChunkNumber (d : TaskData) (frameNumber : Nat) : Nat :=
  frameNumber / d.chunkSize

/-- SegmentFrameProvider.get_chunk_number (frame_provider.py lines
417-418): frame_number // chunk_size of the owning task's data. -/
def segmentGetChunkNumber (d : TaskData) (frameNumber : Nat) : Nat :=
  frameNumber / d.chunkSize

/-- Python math.ceil(a / b) for natural numbers (b positive). -/
def pyCeilDiv (a b : Nat) : Nat := (a + b - 1) / b

/-- TaskFrameProvider.validate_chunk_number (frame_provider.py lines
204-213): accept 0 ≤ chunk_number ≤ ceil(size / chunk_size), reject the
rest with a ValidationError. -/
def taskValidateChunkNumber (d : TaskData) (chunkNumber : Nat) : Except PyError Nat :=
  if chunkNumber ≤ pyCeilDiv d.size d.chunkSize then .ok chunkNumber
  else .error .validationError

/-- Python range(a, b, s) for a positive step, as an ascending list. -/
def pyRange (a b s : Nat) : List Nat :=
  (List.range ((b - a + (s - 1)) / s)).map (fun i => a + i * s)

/-- The task frame ids considered by TaskFrameProvider.get_chunk for task
chunk k (frame_provider.py lines 227-237): the contents of
set(range(start_frame + k*chunk_size*step,
min(start_frame + ((k+1)*chunk_size - 1)*step, stop_frame) + step, step)),
as an ascending list.  The truncated subtraction in (k+1)*chunk_size - 1
agrees with Python for chunk_size ≥ 1 (chunk_size is positive by the data
model). -/
def taskChunkFrameWindow (d : TaskData) (k : Nat) : List Nat :=
  pyRange (d.startFrame + k * d.chunkSize * d.frameStep)
    (min (d.startFrame + ((k + 1) * d.chunkSize - 1) * d.frameStep) d.stopFrame
      + d.frameStep)
    d.frameStep

/-- Stable insertion of a segment into a list already sorted by
startFrame: the new element goes after existing elements with an equal or
smaller key (Python sorted is stable). -/
def insertSegByStart (s : Segment) : List Segment → List Segment
| [] => [s]
| t :: ts =>
  if s.startFrame < t.startFrame then s :: t :: ts else t :: insertSegByStart s ts

/-- Python sorted(segments, key=start_frame): a stable sort by
startFrame. -/
def sortSegmentsByStart (l : List Segment) : List Segment :=
  l.foldl (fun acc s => insertSegByStart s acc) []

/-- Result of TaskFrameProvider.get_chunk with chunk payloads abstracted
to frame ids: a ValidationError from validate_chunk_number, the bare
assert on the emptiness of matching_segments (frame_provider.py line 248),
delegation to the single covering segment provider, or a joined chunk
synthesized in memory (and written to no cache key) carrying the appended
frame ids in order. -/
inductive TaskChunkResult
| invalidChunkNumber
| assertionFailed
| delegated (segmentId : Nat) (segmentChunkNumber : Nat)
| joined (frameIds : List Nat)
deriving DecidableEq, Repr

/-- TaskFrameProvider.get_chunk (frame_provider.py lines 221-312), with
frames abstracted to their ids.  `setIterOrder` models the iteration
order of the Python set task_chunk_frame_set; it is applied to the
ascending list of the set's elements, and membership tests do not depend
on it.  The chunk number is validated; the RANGE segments whose frame
sets intersect the chunk window are collected and sorted by start frame;
the bare assert fires when none match; a single match delegates to that
segment's provider at segment chunk number
get_chunk_number(chunk_number * chunk_size); several matches synthesize a
joined chunk: for each matching segment in order, the chunk frame ids
lying in that segment's frame set are appended in set-iteration order. -/
def matchingRangeSegments (d : TaskData) (segments : List Segment) (k : Nat) :
    List Segment :=
  sortSegmentsByStart (segments.filter
    (fun s => decide (s.segType = SegmentType.RANGE) &&
      s.frameSet.any (fun f => decide (f ∈ taskChunkFrameWindow d k))))

/-- The part of TaskFrameProvider.get_chunk after chunk number
validation: assert on the matching segments, delegate on a single match,
synthesize the joined chunk on several. -/
def taskGetChunkValidated (setIterOrder : List Nat → List Nat) (d : TaskData)
    (segments : List Segment) (k : Nat) : TaskChunkResult :=
  match matchingRangeSegments d segments k with
  | [] => .assertionFailed
  | [s] => .delegated s.id (segmentGetChunkNumber d (k * d.chunkSize))
  | ms => .joined (ms.flatMap (fun s =>
      (setIterOrder (taskChunkFrameWindow d k)).filter
        (fun f => decide (f ∈ s.frameSet))))

/-- TaskFrameProvider.get_chunk (frame_provider.py lines 221-312) with
frames abstracted to their ids; see `matchingRangeSegments` above for the
segment collection step and its doc comment for the full behavior.  The
joined result is synthesized in memory and written to no cache key. -/
def taskGetChunk (setIterOrder : List Nat → List Nat) (d : TaskData)
    (segments : List Segment) (chunkNumber : Nat) : TaskChunkResult :=
  match taskValidateChunkNumber d chunkNumber with
  | .error _ => .invalidChunkNumber
  | .ok k => taskGetChunkValidated setIterOrder d segments k

/-- Modelled from CPython: the iteration order of a set of at most four
distinct small nonnegative ints whose values are distinct modulo 8.  The
hash of a small nonnegative int is the int itself; with at most four
elements the table keeps its initial eight slots (a resize is only
triggered by a fifth insertion) and, the residues being distinct, element
v sits in slot v mod 8 with no probing; iteration scans the slots in
ascending index, so the elements come out ordered by v mod 8. -/
def insertByMod8 (v : Nat) : List Nat → List Nat
| [] => [v]
| w :: ws => if v % 8 < w % 8 then v :: w :: ws else w :: insertByMod8 v ws

/-- CPython set iteration order for the small-int sets described at
`insertByMod8`: the elements sorted by value modulo 8. -/
def cpySmallIntSetOrder (l : List Nat) : List Nat :=
  l.foldl (fun acc v => insertByMod8 v acc) []

/-! ## MediaCache.prepare_masked_range_segment_chunk (cache.py 360-423) -/

/-- One archive slot of a masked-range (SPECIFIC_FRAMES) chunk: either a
real frame pulled from the media reader (identified by the frame id the
reader yields) or the shared 1x1 RGB placeholder image bytes.
`readerFault` marks a next() call on an exhausted reader (a StopIteration
escaping the generator), which aborts the chunk. -/
inductive MaskedSlot
| real (frameId : Nat)
| placeholder
| readerFault
deriving DecidableEq, Repr

/-- Python list slice frame_set[chunk_size * k : chunk_size * (k + 1)]
(cache.py lines 353-355 and 367-369). -/
def chunkFrameIdsOf (frameSet : List Nat) (chunkSize k : Nat) : List Nat :=
  (frameSet.drop (chunkSize * k)).take chunkSize

/-- The slot loop of the get_frames generator inside
MediaCache.prepare_masked_range_segment_chunk (cache.py lines 382-410):
for i in range(chunk_size), the visited slot id is
start_frame + chunk_number * chunk_size + i * frame_step (note: the
chunk_number * chunk_size term is not multiplied by frame_step in the
source); the loop breaks once stop_frame < slot id; a slot id contained
in chunk_frame_ids pulls the next frame from the reader (which yields the
requested chunk_frame_ids in order), any other slot yields the
placeholder bytes.  `i` counts the visited slots, `n` the remaining loop
iterations, `reader` the frames not yet pulled. -/
def maskedSlotLoop (d : TaskData) (chunkNumber : Nat) (chunkFrameIds : List Nat) :
    Nat → Nat → List Nat → List MaskedSlot
| _, 0, _ => []
| i, n + 1, reader =>
  let slotId := d.startFrame + chunkNumber * d.chunkSize + i * d.frameStep
  if d.stopFrame < slotId then []
  else if slotId ∈ chunkFrameIds then
    match reader with
    | [] => [.readerFault]
    | f :: fs => .real f :: maskedSlotLoop d chunkNumber chunkFrameIds (i + 1) n fs
  else .placeholder :: maskedSlotLoop d chunkNumber chunkFrameIds (i + 1) n reader

/-- MediaCache.prepare_masked_range_segment_chunk (cache.py lines
360-423) reduced to the sequence of slots written into the archive: the
chunk's frame-id list is frame_set[chunk_size*k : chunk_size*(k+1)], the
raw reader yields exactly those ids in order, and the slot loop runs for
chunk_size iterations from i = 0. -/
def prepareMaskedRangeChunkSlots (d : TaskData) (seg : Segment) (chunkNumber : Nat) :
    List MaskedSlot :=
  maskedSlotLoop d chunkNumber (chunkFrameIdsOf seg.frameSet d.chunkSize chunkNumber)
    0 d.chunkSize (chunkFrameIdsOf seg.frameSet d.chunkSize chunkNumber)

/-- The same slot loop with the slot ids the spec (section 4.3.1) and
claim C1 assert: start_frame + chunk_number*chunk_size*frame_step +
i*frame_step.  Stated only for comparison with the source computation
`maskedSlotLoop`, which omits the frame_step factor on the
chunk_number*chunk_size term. -/
def maskedSlotLoopPerSpec (d : TaskData) (chunkNumber : Nat) (chunkFrameIds : List Nat) :
    Nat → Nat → List Nat → List MaskedSlot
| _, 0, _ => []
| i, n + 1, reader =>
  let slotId := d.startFrame + chunkNumber * d.chunkSize * d.frameStep + i * d.frameStep
  if d.stopFrame < slotId then []
  else if slotId ∈ chunkFrameIds then
    match reader with
    | [] => [.readerFault]
    | f :: fs => .real f :: maskedSlotLoopPerSpec d chunkNumber chunkFrameIds (i + 1) n fs
  else .placeholder :: maskedSlotLoopPerSpec d chunkNumber chunkFrameIds (i + 1) n reader

/-- The masked-range chunk slots as the spec and claim C1 describe them:
identical to `prepareMaskedRangeChunkSlots` except for the frame_step
factor on the chunk offset. -/
def prepareMaskedRangeChunkSlotsPerSpec (d : TaskData) (seg : Segment)
    (chunkNumber : Nat) : List MaskedSlot :=
  maskedSlotLoopPerSpec d chunkNumber
    (chunkFrameIdsOf seg.frameSet d.chunkSize chunkNumber)
    0 d.chunkSize (chunkFrameIdsOf seg.frameSet d.chunkSize chunkNumber)

/-! ## MediaCache._prepare_cloud_preview (cache.py 448-482) -/

/-- Modelled from the spec: a manifest entry (name, extension) as exposed
by the manifest reader (utils.dataset_manifest is outside the source
files). -/
structure ManifestEntry where
  name : String
  extension : String
deriving DecidableEq, Repr

/-- Modelled from the spec: a manifest file descriptor of a cloud storage
binding, carrying its filename and the parsed manifest contents. -/
structure ManifestModel where
  filename : String
  entries : List ManifestEntry
deriving DecidableEq, Repr

/-- Modelled from the spec: a cloud storage binding with its ordered
manifest descriptors and the blob-store download function
(BlobStore.download_one : name → bytes). -/
structure CloudStorage where
  id : Nat
  manifests : List ManifestModel
  download : String → List Nat

/-- os.path.dirname for the relative slash-separated paths used here:
everything before the final slash, empty when there is none. -/
def pathDirname (p : String) : String :=
  match (p.data.reverse).dropWhile (fun c => c != '/') with
  | [] => ""
  | _ :: rest => ⟨rest.reverse⟩

/-- os.path.join for the relative paths used here. -/
def pathJoin (a b : String) : String :=
  if a = "" then b else a ++ "/" ++ b

/-- String suffix test (String.endsWith), stated structurally on the
character lists. -/
def strEndsWith (p s : String) : Bool :=
  s.data.isSuffixOf p.data

/-- Modelled from the spec: Python mimetypes.guess_type reduced to the
extensions relevant here — the MIME type is guessed from the file
extension. -/
def mimeGuess (p : String) : Option String :=
  if strEndsWith p ".jpg" || strEndsWith p ".jpeg" then some "image/jpeg"
  else if strEndsWith p ".png" then some "image/png"
  else if strEndsWith p ".zip" then some "application/zip"
  else if strEndsWith p ".mp4" then some "video/mp4"
  else none

/-- The preview path selected by the manifest loop of
MediaCache._prepare_cloud_preview (cache.py lines 453-473): skip empty
manifests; from the first non-empty one take entry 0 and join its
name+extension onto the manifest's directory. -/
def firstPreviewPath : List ManifestModel → Option String
| [] => none
| m :: ms =>
  match m.entries with
  | [] => firstPreviewPath ms
  | e :: _ => some (pathJoin (pathDirname m.filename) (e.name ++ e.extension))

/-- MediaCache._prepare_cloud_preview (cache.py lines 448-482): raise a
ValidationError when the binding has no manifest files at all; otherwise
walk the manifests in order (the re-download of stale local manifest
copies is I/O that does not affect the selection), pick the first entry
of the first non-empty manifest, and raise NotFound when every manifest
is empty; on success download the selected object and return its bytes
with a MIME guessed from the path. -/
def prepareCloudPreview (storage : CloudStorage) :
    Except PyError (List Nat × Option String) :=
  if storage.manifests.length = 0 then .error .validationError
  else
    match firstPreviewPath storage.manifests with
    | none => .error .notFoundError
    | some p => .ok (storage.download p, mimeGuess p)

/-! ## Segment preview (cache.py 425-446 and 513-522) -/

/-- Modelled from the spec: a decoded raster image (PIL.Image.Image) with
its pixel dimensions, EXIF orientation tag (1..8, of which 5..8 transpose
width and height) and an abstract pixel payload identifier. -/
structure PILImage where
  width : Nat
  height : Nat
  exifTag : Nat
  content : Nat
deriving DecidableEq, Repr

/-- Modelled from the spec: PIL.ImageOps.exif_transpose normalizes the
EXIF orientation; tags 5..8 swap the two dimensions; the result carries
the neutral tag 1. -/
def exifTranspose (im : PILImage) : PILImage :=
  if 5 ≤ im.exifTag ∧ im.exifTag ≤ 8 then
    ⟨im.height, im.width, 1, im.content⟩
  else
    ⟨im.width, im.height, 1, im.content⟩

/-- Modelled from the spec: PIL Image.thumbnail((bound, bound)) —
downscale only, to fit the bounding box while preserving the aspect
ratio: when the image exceeds the box, both dimensions are scaled by the
common factor bound / max(width, height). -/
def thumbnailFit (w h bound : Nat) : Nat × Nat :=
  if w ≤ bound ∧ h ≤ bound then (w, h)
  else (max 1 (w * bound / max w h), max 1 (h * bound / max w h))

/-- An encoded image artifact: the image and its encoding format. -/
structure EncodedImage where
  image : PILImage
  format : String
deriving DecidableEq, Repr

/-- prepare_preview_image (cache.py lines 513-522): EXIF-transpose the
image, thumbnail it to fit PREVIEW_SIZE = (256, 256), convert to RGB and
save as JPEG; the MIME returned is PREVIEW_MIME = "image/jpeg". -/
def preparePreviewImage (im : PILImage) : EncodedImage × String :=
  let t := exifTranspose im
  let dims := thumbnailFit t.width t.height 256
  (⟨⟨dims.1, dims.2, 1, t.content⟩, "JPEG"⟩, "image/jpeg")

/-- SegmentFrameProvider.get_frame at out_type = PIL (frame_provider.py
lines 444-462) over the chunk pipeline: validate the frame number into
(chunk, offset), load that chunk — whose frames are the decoded contents
of frame_set[chunk_size*k : chunk_size*(k+1)] in order, as produced by
MediaCache.prepare_range_segment_chunk — and take the frame at the
offset.  `frames` abstracts the decoded media content per quality tier
(modelled from the spec: the media reader and chunk writer are outside
the decidable fragment). -/
def segmentGetFramePIL (frames : FrameQuality → Nat → PILImage) (seg : Segment)
    (chunkSize : Nat) (q : FrameQuality) (f : Nat) : Except PyError PILImage :=
  match validateFrameNumber seg.frameSet chunkSize f with
  | .error e => .error e
  | .ok (_, k, offset) =>
    match (chunkFrameIdsOf seg.frameSet chunkSize k)[offset]? with
    | none => .error .valueError
    | some fid => .ok (frames q fid)

/-- Modelled from the spec: TaskFrameProvider.get_rel_frame_number is
called by the preview producer (cache.py line 441) but is absent from the
source files; the spec (section 4.3.2) describes the request as being for
the segment's lowest-numbered frame, so the translation is modelled as
the identity on frame ids. -/
def getRelFrameNumber (f : Nat) : Nat := f

/-- The preview production for a chosen frame number: the frame fetched
through the segment provider at COMPRESSED quality as a PIL image, then
prepare_preview_image. -/
def prepareSegmentPreviewOfFrame (frames : FrameQuality → Nat → PILImage)
    (seg : Segment) (chunkSize m : Nat) : Except PyError (EncodedImage × String) :=
  match segmentGetFramePIL frames seg chunkSize FrameQuality.COMPRESSED
      (getRelFrameNumber m) with
  | .error e => .error e
  | .ok im => .ok (preparePreviewImage im)

/-- The 2D branch of MediaCache._prepare_segment_preview (cache.py lines
425-446): fetch the segment's lowest frame (Python min over the frame
set, a ValueError on an empty one) through the segment frame provider at
COMPRESSED quality as a PIL image, then prepare_preview_image. -/
def prepareSegmentPreview2D (frames : FrameQuality → Nat → PILImage)
    (seg : Segment) (chunkSize : Nat) : Except PyError (EncodedImage × String) :=
  match seg.frameSet.min? with
  | none => .error .valueError
  | some m => prepareSegmentPreviewOfFrame frames seg chunkSize m

/-! ## Theorems about the cache (claims C2 and C9) -/

/-- C2: for a cache key with a deterministic producer, get-or-set on a
hit verifies that the CRC-32 of the stored bytes equals the stored
checksum; on a match it returns the stored bytes and MIME without
invoking the producer and leaves the entry unchanged; on a mismatch it
treats the hit as a miss, re-runs the producer and, the producer yielding
bytes bs, stores the fresh (bytes, mime, crc32 bytes) triple and returns
bytes equal to a freshly produced value (what the same producer returns
on a clean miss). -/
theorem getOrSet_crc_verified_and_selfheals
    (e : CacheEntry) (producer : ProducedData) (bs : List Nat) :
    (e.checksum = some (getChecksum e.data) →
      getOrSetCacheItem (some e) producer =
        { data := some e.data, mime := e.mime, stored := some e,
          producerRan := false }) ∧
    (e.checksum ≠ some (getChecksum e.data) → producer.data = some bs →
      (getOrSetCacheItem (some e) producer).data = some bs ∧
      (getOrSetCacheItem (some e) producer).stored =
        some ⟨bs, producer.mime, some (getChecksum bs)⟩ ∧
      (getOrSetCacheItem (some e) producer).producerRan = true ∧
      (getOrSetCacheItem (some e) producer).data =
        (getOrSetCacheItem none producer).data) := by
  constructor
  · intro h
    simp [getOrSetCacheItem, h]
  · intro h hp
    simp [getOrSetCacheItem, createCacheItem, h, hp]

/-- Witness for the C2 theorem: a matching entry holding the empty buffer
with checksum crc32 of the empty sequence is served untouched with the
producer not run; an entry with a missing stored checksum mismatches and
is rebuilt from the producer's bytes. -/
theorem getOrSet_crc_verified_and_selfheals_witness :
    getOrSetCacheItem (some ⟨[], some "application/zip", some (getChecksum [])⟩)
        ⟨some [7], some "application/zip"⟩ =
      { data := some [], mime := some "application/zip",
        stored := some ⟨[], some "application/zip", some (getChecksum [])⟩,
        producerRan := false } ∧
    (getOrSetCacheItem (some ⟨[5], none, none⟩)
        ⟨some [7], some "application/zip"⟩).stored =
      some ⟨[7], some "application/zip", some (getChecksum [7])⟩ ∧
    (getOrSetCacheItem (some ⟨[5], none, none⟩)
        ⟨some [7], some "application/zip"⟩).producerRan = true :=
  ⟨(getOrSet_crc_verified_and_selfheals
      ⟨[], some "application/zip", some (getChecksum [])⟩
      ⟨some [7], some "application/zip"⟩ [7]).1 rfl,
   ((getOrSet_crc_verified_and_selfheals ⟨[5], none, none⟩
      ⟨some [7], some "application/zip"⟩ [7]).2 (by simp) rfl).2.1,
   ((getOrSet_crc_verified_and_selfheals ⟨[5], none, none⟩
      ⟨some [7], some "application/zip"⟩ [7]).2 (by simp) rfl).2.2.1⟩

/-- C9 counterexample: a producer returning an empty but present buffer
(an io.BytesIO object holding no bytes is truthy in Python, so the guard
`if item_data[0]:` takes the storing branch) has its entry stored by
get-or-set on a miss — an empty bytes value is not exempt from the write,
only the absent (None) value is. -/
theorem getOrSet_stores_empty_present_buffer :
    (getOrSetCacheItem none ⟨some [], some "application/zip"⟩).stored =
      some ⟨[], some "application/zip", some (getChecksum [])⟩ ∧
    (getOrSetCacheItem none ⟨some [], some "application/zip"⟩).stored ≠ none := by
  refine ⟨rfl, ?_⟩
  intro h
  simp [getOrSetCacheItem, createCacheItem] at h

/-- C9 amended: whenever the producer is invoked (a miss, or a checksum
mismatch treated as a miss) and returns the absent value (Python None,
the context-image producer's no-artifact sentinel), get-or-set returns it
to the caller and writes nothing — the stored state stays as it was;
when the producer returns a present buffer, empty or not, the produced
entry is always stored.  A miss always invokes the producer. -/
theorem getOrSet_none_not_stored_present_stored
    (stored : Option CacheEntry) (producer : ProducedData) :
    ((getOrSetCacheItem stored producer).producerRan = true →
      (producer.data = none →
        (getOrSetCacheItem stored producer).stored = stored ∧
        (getOrSetCacheItem stored producer).data = none ∧
        (getOrSetCacheItem stored producer).mime = producer.mime) ∧
      (∀ bs, producer.data = some bs →
        (getOrSetCacheItem stored producer).stored =
          some ⟨bs, producer.mime, some (getChecksum bs)⟩ ∧
        (getOrSetCacheItem stored producer).data = some bs)) ∧
    (stored = none → (getOrSetCacheItem stored producer).producerRan = true) := by
  cases stored with
  | none =>
    refine ⟨fun _ => ⟨fun hp => ?_, fun bs hp => ?_⟩, fun _ => ?_⟩
    · simp [getOrSetCacheItem, createCacheItem, hp]
    · simp [getOrSetCacheItem, createCacheItem, hp]
    · cases hp : producer.data <;> simp [getOrSetCacheItem, createCacheItem, hp]
  | some e =>
    by_cases hc : e.checksum = some (getChecksum e.data)
    · refine ⟨fun hran => ?_, fun hn => ?_⟩
      · simp [getOrSetCacheItem, hc] at hran
      · exact absurd hn (by simp)
    · refine ⟨fun _ => ⟨fun hp => ?_, fun bs hp => ?_⟩, fun hn => ?_⟩
      · simp [getOrSetCacheItem, createCacheItem, hc, hp]
      · simp [getOrSetCacheItem, createCacheItem, hc, hp]
      · exact absurd hn (by simp)

/-- Witness for the C9 amended theorem: the absent producer value on a
miss is returned with nothing stored; a present buffer is stored. -/
theorem getOrSet_none_not_stored_present_stored_witness :
    (getOrSetCacheItem none ⟨none, none⟩).stored = none ∧
    (getOrSetCacheItem none ⟨none, none⟩).data = none ∧
    (getOrSetCacheItem none ⟨some [3], some "application/zip"⟩).stored =
      some ⟨[3], some "application/zip", some (getChecksum [3])⟩ :=
  ⟨(((getOrSet_none_not_stored_present_stored none ⟨none, none⟩).1 rfl).1 rfl).1,
   (((getOrSet_none_not_stored_present_stored none ⟨none, none⟩).1 rfl).1 rfl).2.1,
   ((((getOrSet_none_not_stored_present_stored none
        ⟨some [3], some "application/zip"⟩).1 rfl).2) [3] rfl).1⟩

/-! ## Theorems about frame and chunk addressing (claims C4 and C5) -/

/-- C4: for every frame f in the segment's frame set,
validate_frame_number returns (f, k, o) with k * chunk_size + o equal to
the index of f in the frame set and 0 ≤ o < chunk_size; every other f is
rejected with a ValidationError (the spec's InvalidArgument). -/
theorem validate_frame_number_addressing (seg : Segment) (chunkSize f : Nat)
    (hcs : 0 < chunkSize) :
    (f ∈ seg.frameSet →
      validateFrameNumber seg.frameSet chunkSize f =
        .ok (f, seg.frameSet.indexOf f / chunkSize,
             seg.frameSet.indexOf f % chunkSize) ∧
      (seg.frameSet.indexOf f / chunkSize) * chunkSize +
          seg.frameSet.indexOf f % chunkSize = seg.frameSet.indexOf f ∧
      seg.frameSet.indexOf f % chunkSize < chunkSize) ∧
    (f ∉ seg.frameSet →
      validateFrameNumber seg.frameSet chunkSize f = .error .validationError) := by
  constructor
  · intro hf
    refine ⟨by simp [validateFrameNumber, hf], ?_, Nat.mod_lt _ hcs⟩
    rw [Nat.mul_comm]
    exact Nat.div_add_mod _ _
  · intro hf
    simp [validateFrameNumber, hf]

/-- Witness for the C4 theorem at frame set [3, 5, 9] with chunk size 2:
frame 9 maps to chunk 1, offset 0 (1 * 2 + 0 = 2 is the index of 9), and
frame 4 is rejected. -/
theorem validate_frame_number_addressing_witness :
    validateFrameNumber [3, 5, 9] 2 9 = .ok (9, 1, 0) ∧
    validateFrameNumber [3, 5, 9] 2 4 = .error .validationError := by
  have h9 := (validate_frame_number_addressing ⟨1, .RANGE, 3, [3, 5, 9]⟩ 2 9
    (by decide)).1 (by decide)
  have h4 := (validate_frame_number_addressing ⟨1, .RANGE, 3, [3, 5, 9]⟩ 2 4
    (by decide)).2 (by decide)
  exact ⟨h9.1, h4⟩

/-- C5: both TaskFrameProvider.get_chunk_number and
SegmentFrameProvider.get_chunk_number return frame_number // chunk_size,
taking no account of the task's start frame or frame step: the result
equals the floor division and is unchanged under arbitrary changes of
startFrame, stopFrame and frameStep. -/
theorem get_chunk_number_is_floor_div
    (start stop step cs size start' stop' step' f : Nat) :
    taskGetChunkNumber ⟨start, stop, step, cs, size⟩ f = f / cs ∧
    segmentGetChunkNumber ⟨start, stop, step, cs, size⟩ f = f / cs ∧
    taskGetChunkNumber ⟨start, stop, step, cs, size⟩ f =
      taskGetChunkNumber ⟨start', stop', step', cs, size⟩ f ∧
    segmentGetChunkNumber ⟨start, stop, step, cs, size⟩ f =
      segmentGetChunkNumber ⟨start', stop', step', cs, size⟩ f :=
  ⟨rfl, rfl, rfl, rfl⟩

/-! ## Theorems about the chunk loader (claim C6) -/

/-- C6: a chunk loader holds at most one open reader: from a state
holding chunk a with reader h, load(b) with a ≠ b closes h before opening
the fresh reader (the close event precedes the open event); an
immediately repeated load(b) emits no events, opens nothing and returns
the held reader with the state unchanged; unload closes the held reader
and clears the current chunk id. -/
theorem chunk_loader_single_resident (s : LoaderState) (a b h : Nat)
    (hid : s.chunkId = some a) (hrd : s.chunkReader = some h) (hab : a ≠ b) :
    (loaderLoad s b).1 = [.closed h, .opened s.nextHandle] ∧
    (loaderLoad s b).2.1.chunkReader = some s.nextHandle ∧
    (loaderLoad s b).2.2 = some s.nextHandle ∧
    (loaderLoad (loaderLoad s b).2.1 b).1 = [] ∧
    (loaderLoad (loaderLoad s b).2.1 b).2.2 = some s.nextHandle ∧
    (loaderLoad (loaderLoad s b).2.1 b).2.1 = (loaderLoad s b).2.1 ∧
    (loaderUnload (loaderLoad s b).2.1).1 = [.closed s.nextHandle] ∧
    (loaderUnload (loaderLoad s b).2.1).2.chunkId = none ∧
    (loaderUnload (loaderLoad s b).2.1).2.chunkReader = none := by
  have hne : s.chunkId ≠ some b := by
    rw [hid]
    intro hh
    exact hab (Option.some.inj hh)
  simp [loaderLoad, loaderUnload, hne, hrd]

/-- Witness for the C6 theorem: a loader holding chunk 0 with reader 100
and fresh handle counter 101, asked for chunk 1 twice and unloaded. -/
theorem chunk_loader_single_resident_witness :
    (loaderLoad ⟨some 0, some 100, 101⟩ 1).1 = [.closed 100, .opened 101] ∧
    (loaderLoad (loaderLoad ⟨some 0, some 100, 101⟩ 1).2.1 1).1 = [] ∧
    (loaderUnload (loaderLoad ⟨some 0, some 100, 101⟩ 1).2.1).2.chunkId = none :=
  have hth := chunk_loader_single_resident ⟨some 0, some 100, 101⟩ 0 1 100 rfl rfl
    (by decide)
  ⟨hth.1, hth.2.2.2.1, hth.2.2.2.2.2.2.2.1⟩

/-! ## Theorems about chunk production (claims C1, C3 and C10) -/

/-- C1: evaluation of the source slot computation at a failing input.
prepare_masked_range_segment_chunk visits slot ids
start_frame + chunk_number * chunk_size + i * frame_step (cache.py lines
386-391), while the spec and the claim state
start_frame + chunk_number * chunk_size * frame_step + i * frame_step.
For a task with start 0, stop 10, frame step 2, chunk size 2 and a
SPECIFIC_FRAMES segment owning every task frame [0,2,4,6,8,10], chunk 1
(whose frame-id list is [4,6]) is produced by the source as a placeholder
followed by frame 4, where the specified slots carry frames 4 and 6. -/
theorem masked_chunk_slot_stride_bug :
    prepareMaskedRangeChunkSlots ⟨0, 10, 2, 2, 6⟩
        ⟨1, .SPECIFIC_FRAMES, 0, [0, 2, 4, 6, 8, 10]⟩ 1 =
      [.placeholder, .real 4] ∧
    prepareMaskedRangeChunkSlotsPerSpec ⟨0, 10, 2, 2, 6⟩
        ⟨1, .SPECIFIC_FRAMES, 0, [0, 2, 4, 6, 8, 10]⟩ 1 =
      [.real 4, .real 6] ∧
    prepareMaskedRangeChunkSlots ⟨0, 10, 2, 2, 6⟩
        ⟨1, .SPECIFIC_FRAMES, 0, [0, 2, 4, 6, 8, 10]⟩ 1 ≠
      prepareMaskedRangeChunkSlotsPerSpec ⟨0, 10, 2, 2, 6⟩
        ⟨1, .SPECIFIC_FRAMES, 0, [0, 2, 4, 6, 8, 10]⟩ 1 := by
  refine ⟨by decide, by decide, by decide⟩

/-- C3: evaluation of TaskFrameProvider.get_chunk at a failing input.
Task chunk 1 of a task with start frame 1, stop 12, step 1, chunk size 4
has frame window {5,6,7,8}; it spans the RANGE segments [1..6] and
[7..12].  CPython iterates the set {5,6,7,8} in hash-table slot order
8,5,6,7 (elements occupy slots value mod 8 of the eight-slot table), so
the joined chunk appends frames [5,6,8,7] — not in ascending task
frame-id order as claimed. -/
theorem joined_chunk_order_bug :
    taskGetChunk cpySmallIntSetOrder ⟨1, 12, 1, 4, 12⟩
        [⟨1, .RANGE, 1, [1, 2, 3, 4, 5, 6]⟩, ⟨2, .RANGE, 7, [7, 8, 9, 10, 11, 12]⟩]
        1 =
      .joined [5, 6, 8, 7] ∧
    ¬ List.Pairwise (· ≤ ·) [5, 6, 8, 7] ∧
    [5, 6, 8, 7] ≠ [5, 6, 7, 8] := by
  refine ⟨by decide, by decide, by decide⟩

/-- C10: TaskFrameProvider.validate_chunk_number accepts the boundary
chunk number ceil(size / chunk_size), one past the last populated chunk;
the frame window of that chunk is empty; and any validated chunk number
whose window meets no RANGE segment makes get_chunk fail with the bare
assert on matching_segments (frame_provider.py line 248) — an
AssertionError, not the ValidationError of an InvalidArgument. -/
theorem boundary_chunk_validated_but_unservable
    (d : TaskData) (segments : List Segment) (setIterOrder : List Nat → List Nat)
    (k : Nat) (hstep : 0 < d.frameStep) (hcs : 0 < d.chunkSize) (hsize : 0 < d.size)
    (hstop : d.stopFrame = d.startFrame + (d.size - 1) * d.frameStep) :
    taskValidateChunkNumber d (pyCeilDiv d.size d.chunkSize) =
      .ok (pyCeilDiv d.size d.chunkSize) ∧
    taskChunkFrameWindow d (pyCeilDiv d.size d.chunkSize) = [] ∧
    (taskValidateChunkNumber d k = .ok k →
      (∀ s ∈ segments, s.segType = SegmentType.RANGE →
        ∀ f ∈ s.frameSet, f ∉ taskChunkFrameWindow d k) →
      taskGetChunk setIterOrder d segments k = .assertionFailed) ∧
    TaskChunkResult.assertionFailed ≠ TaskChunkResult.invalidChunkNumber := by
  have hK : d.size ≤ pyCeilDiv d.size d.chunkSize * d.chunkSize := by
    have h1 : pyCeilDiv d.size d.chunkSize = (d.size - 1) / d.chunkSize + 1 := by
      unfold pyCeilDiv
      have he : d.size + d.chunkSize - 1 = (d.size - 1) + d.chunkSize := by omega
      rw [he, Nat.add_div_right _ hcs]
    have h2 : d.size - 1 < pyCeilDiv d.size d.chunkSize * d.chunkSize := by
      rw [h1]
      exact (Nat.div_lt_iff_lt_mul hcs).mp (Nat.lt_succ_self _)
    omega
  refine ⟨by simp [taskValidateChunkNumber], ?_, ?_, by simp⟩
  · have hexp : (pyCeilDiv d.size d.chunkSize + 1) * d.chunkSize =
        pyCeilDiv d.size d.chunkSize * d.chunkSize + d.chunkSize := by ring
    have hle1 : (d.size - 1) * d.frameStep ≤
        ((pyCeilDiv d.size d.chunkSize + 1) * d.chunkSize - 1) * d.frameStep :=
      Nat.mul_le_mul (by omega) le_rfl
    have hmin : min (d.startFrame +
        ((pyCeilDiv d.size d.chunkSize + 1) * d.chunkSize - 1) * d.frameStep)
        d.stopFrame = d.stopFrame :=
      min_eq_right (by omega)
    have e1 : (d.size - 1) * d.frameStep + d.frameStep = d.size * d.frameStep := by
      have hc : d.size - 1 + 1 = d.size := Nat.sub_add_cancel hsize
      calc (d.size - 1) * d.frameStep + d.frameStep
          = ((d.size - 1) + 1) * d.frameStep := by ring
        _ = d.size * d.frameStep := by rw [hc]
    have hms : d.size * d.frameStep ≤
        pyCeilDiv d.size d.chunkSize * d.chunkSize * d.frameStep :=
      Nat.mul_le_mul hK le_rfl
    have hba : d.stopFrame + d.frameStep ≤
        d.startFrame + pyCeilDiv d.size d.chunkSize * d.chunkSize * d.frameStep := by
      omega
    unfold taskChunkFrameWindow
    rw [hmin]
    unfold pyRange
    have hz : d.stopFrame + d.frameStep -
        (d.startFrame + pyCeilDiv d.size d.chunkSize * d.chunkSize * d.frameStep) = 0 :=
      Nat.sub_eq_zero_of_le hba
    rw [hz, Nat.zero_add, Nat.div_eq_of_lt (by omega)]
    simp
  · intro hval hdisj
    have hfil : segments.filter
        (fun s => decide (s.segType = SegmentType.RANGE) &&
          s.frameSet.any (fun f => decide (f ∈ taskChunkFrameWindow d k))) = [] := by
      refine List.filter_eq_nil_iff.mpr (fun s hs => ?_)
      have hps : (decide (s.segType = SegmentType.RANGE) &&
          s.frameSet.any (fun f => decide (f ∈ taskChunkFrameWindow d k))) = false := by
        by_cases hR : s.segType = SegmentType.RANGE
        · have hany : s.frameSet.any
              (fun f => decide (f ∈ taskChunkFrameWindow d k)) = false :=
            List.any_eq_false.mpr (fun f hf => by simp [hdisj s hs hR f hf])
          rw [hany, Bool.and_false]
        · simp [hR]
      simp [hps]
    have hm : matchingRangeSegments d segments k = [] := by
      unfold matchingRangeSegments
      rw [hfil]
      rfl
    have hred : taskGetChunk setIterOrder d segments k =
        taskGetChunkValidated setIterOrder d segments k := by
      unfold taskGetChunk
      rw [hval]
    rw [hred]
    unfold taskGetChunkValidated
    rw [hm]

/-- Witness for the C10 theorem: a task with frames 0..9, step 1, chunk
size 5 (so two populated chunks and boundary chunk number 2) and a single
RANGE segment covering everything: chunk number 2 is accepted by
validation yet get_chunk hits the bare assert. -/
theorem boundary_chunk_validated_but_unservable_witness :
    taskValidateChunkNumber ⟨0, 9, 1, 5, 10⟩ 2 = .ok 2 ∧
    taskGetChunk (fun l => l) ⟨0, 9, 1, 5, 10⟩
      [⟨1, .RANGE, 0, [0, 1, 2, 3, 4, 5, 6, 7, 8, 9]⟩] 2 = .assertionFailed :=
  have hth := boundary_chunk_validated_but_unservable ⟨0, 9, 1, 5, 10⟩
    [⟨1, .RANGE, 0, [0, 1, 2, 3, 4, 5, 6, 7, 8, 9]⟩] (fun l => l) 2
    (by decide) (by decide) (by decide) (by decide)
  ⟨hth.1, hth.2.2.1 hth.1 (by decide)⟩

/-! ## Theorems about the cloud preview (claim C7) -/

theorem firstPreviewPath_none_of_all_empty (ms : List ManifestModel)
    (h : ∀ m ∈ ms, m.entries = []) : firstPreviewPath ms = none := by
  induction ms with
  | nil => rfl
  | cons m ms ih =>
    have hm : m.entries = [] := h m (by simp)
    simp only [firstPreviewPath, hm]
    exact ih (fun x hx => h x (by simp [hx]))

theorem firstPreviewPath_first_nonempty (pre : List ManifestModel)
    (m : ManifestModel) (post : List ManifestModel) (e : ManifestEntry)
    (es : List ManifestEntry)
    (hpre : ∀ x ∈ pre, x.entries = []) (hm : m.entries = e :: es) :
    firstPreviewPath (pre ++ m :: post) =
      some (pathJoin (pathDirname m.filename) (e.name ++ e.extension)) := by
  induction pre with
  | nil => simp only [List.nil_append, firstPreviewPath, hm]
  | cons x xs ih =>
    have hx : x.entries = [] := hpre x (by simp)
    simp only [List.cons_append, firstPreviewPath, hx]
    exact ih (fun y hy => hpre y (by simp [hy]))

/-- C7 counterexample: a cloud storage binding with no manifest files
makes _prepare_cloud_preview raise a ValidationError (cache.py line 451:
"Cannot get the cloud storage preview. There is no manifest file"), not
the NotFound the claim assigns to that case. -/
theorem cloud_preview_no_manifest_not_notfound :
    prepareCloudPreview ⟨1, [], fun _ => []⟩ = .error .validationError ∧
    prepareCloudPreview ⟨1, [], fun _ => []⟩ ≠ .error .notFoundError := by
  refine ⟨rfl, fun h => ?_⟩
  have h2 : (Except.error .validationError :
      Except PyError (List Nat × Option String)) = .error .notFoundError := h
  exact PyError.noConfusion (Except.error.inj h2)

/-- C7 amended: get_or_set_cloud_preview's producer fails with a
ValidationError (InvalidArgument) when the binding has no manifest files
at all, fails with NotFound when it has manifests but every one is empty,
and otherwise downloads and returns the first entry of the first
non-empty manifest with a MIME guessed from its file extension. -/
theorem cloud_preview_errors_and_selection (storage : CloudStorage) :
    (storage.manifests = [] →
      prepareCloudPreview storage = .error .validationError) ∧
    (storage.manifests ≠ [] → (∀ m ∈ storage.manifests, m.entries = []) →
      prepareCloudPreview storage = .error .notFoundError) ∧
    (∀ pre m post e es, storage.manifests = pre ++ m :: post →
      (∀ x ∈ pre, x.entries = []) → m.entries = e :: es →
      prepareCloudPreview storage =
        .ok (storage.download
              (pathJoin (pathDirname m.filename) (e.name ++ e.extension)),
            mimeGuess (pathJoin (pathDirname m.filename) (e.name ++ e.extension)))) := by
  refine ⟨?_, ?_, ?_⟩
  · intro h
    simp [prepareCloudPreview, h]
  · intro hne hall
    have hlen : ¬ storage.manifests.length = 0 := by
      simpa [List.length_eq_zero] using hne
    simp only [prepareCloudPreview, if_neg hlen,
      firstPreviewPath_none_of_all_empty storage.manifests hall]
  · intro pre m post e es hsplit hpre hm
    have hlen : ¬ storage.manifests.length = 0 := by
      rw [hsplit]
      simp
    have hfp := firstPreviewPath_first_nonempty pre m post e es hpre hm
    rw [← hsplit] at hfp
    simp only [prepareCloudPreview, if_neg hlen, hfp]

/-- Witness for the C7 amended theorem: a binding whose single manifest is
empty yields NotFound; a binding whose first manifest is empty and whose
second begins with entry (a, .png) returns that entry's download with
MIME image/png. -/
theorem cloud_preview_errors_and_selection_witness :
    prepareCloudPreview ⟨2, [⟨"m", []⟩], fun _ => [1]⟩ = .error .notFoundError ∧
    prepareCloudPreview ⟨3, [⟨"m", []⟩, ⟨"n", [⟨"a", ".png"⟩]⟩], fun _ => [9]⟩ =
      .ok ([9], some "image/png") := by
  constructor
  · exact (cloud_preview_errors_and_selection ⟨2, [⟨"m", []⟩], fun _ => [1]⟩).2.1
      (by simp) (by simp)
  · have h := (cloud_preview_errors_and_selection
        ⟨3, [⟨"m", []⟩, ⟨"n", [⟨"a", ".png"⟩]⟩], fun _ => [9]⟩).2.2
      [⟨"m", []⟩] ⟨"n", [⟨"a", ".png"⟩]⟩ [] ⟨"a", ".png"⟩ [] rfl (by simp) rfl
    exact h.trans (by rfl)

/-! ## Theorems about the segment preview (claim C8) -/

theorem chunkFrameIdsOf_getElem (l : List Nat) (cs i : Nat) (hcs : 0 < cs) :
    (chunkFrameIdsOf l cs (i / cs))[i % cs]? = l[i]? := by
  unfold chunkFrameIdsOf
  rw [List.getElem?_take, if_pos (Nat.mod_lt _ hcs), List.getElem?_drop,
    Nat.div_add_mod]

/-- Every dimension of the thumbnail of an image fits the bound (for the
bound 256 used by prepare_preview_image). -/
theorem thumbnailFit_le (w h : Nat) :
    (thumbnailFit w h 256).1 ≤ 256 ∧ (thumbnailFit w h 256).2 ≤ 256 := by
  unfold thumbnailFit
  by_cases hwh : w ≤ 256 ∧ h ≤ 256
  · rw [if_pos hwh]
    exact hwh
  · rw [if_neg hwh]
    have hmax : 0 < max w h := by
      rcases Nat.lt_or_ge w 257 with hw | hw
      · rcases Nat.lt_or_ge h 257 with hh | hh
        · exact absurd ⟨by omega, by omega⟩ hwh
        · omega
      · omega
    constructor
    · refine max_le (by omega) ?_
      calc w * 256 / max w h ≤ max w h * 256 / max w h :=
            Nat.div_le_div_right (Nat.mul_le_mul (le_max_left w h) le_rfl)
        _ = 256 := Nat.mul_div_cancel_left 256 hmax
    · refine max_le (by omega) ?_
      calc h * 256 / max w h ≤ max w h * 256 / max w h :=
            Nat.div_le_div_right (Nat.mul_le_mul (le_max_right w h) le_rfl)
        _ = 256 := Nat.mul_div_cancel_left 256 hmax

/-- C8: for a 2D segment with a non-empty frame set, the segment preview
producer fetches the segment's lowest-numbered frame through the normal
frame-serving path at COMPRESSED quality as a decoded image and returns
prepare_preview_image of it: the EXIF-transposed, 256x256-thumbnailed
image re-encoded as JPEG, with MIME image/jpeg and both dimensions within
256. -/
theorem segment_preview_serves_lowest_frame
    (frames : FrameQuality → Nat → PILImage) (seg : Segment) (chunkSize m : Nat)
    (hcs : 0 < chunkSize) (hmin : seg.frameSet.min? = some m) :
    prepareSegmentPreview2D frames seg chunkSize =
      .ok (preparePreviewImage (frames FrameQuality.COMPRESSED m)) ∧
    (preparePreviewImage (frames FrameQuality.COMPRESSED m)).2 = "image/jpeg" ∧
    (preparePreviewImage (frames FrameQuality.COMPRESSED m)).1.format = "JPEG" ∧
    (preparePreviewImage (frames FrameQuality.COMPRESSED m)).1.image.width ≤ 256 ∧
    (preparePreviewImage (frames FrameQuality.COMPRESSED m)).1.image.height ≤ 256 := by
  have hmem : m ∈ seg.frameSet := List.min?_mem (fun _ _ => min_choice _ _) hmin
  have hidx : seg.frameSet.indexOf m < seg.frameSet.length :=
    List.indexOf_lt_length.mpr hmem
  have hval : validateFrameNumber seg.frameSet chunkSize m =
      .ok (m, seg.frameSet.indexOf m / chunkSize,
           seg.frameSet.indexOf m % chunkSize) := by
    simp [validateFrameNumber, hmem]
  have hget : (chunkFrameIdsOf seg.frameSet chunkSize
      (seg.frameSet.indexOf m / chunkSize))[seg.frameSet.indexOf m % chunkSize]? =
      some m := by
    rw [chunkFrameIdsOf_getElem seg.frameSet chunkSize _ hcs,
      List.getElem?_eq_getElem hidx, List.getElem_indexOf hidx]
  refine ⟨?_, rfl, rfl, ?_, ?_⟩
  · have h1 : prepareSegmentPreview2D frames seg chunkSize =
        prepareSegmentPreviewOfFrame frames seg chunkSize m := by
      unfold prepareSegmentPreview2D
      rw [hmin]
    rw [h1]
    unfold prepareSegmentPreviewOfFrame segmentGetFramePIL getRelFrameNumber
    simp only [hval, hget]
  · exact (thumbnailFit_le (exifTranspose (frames FrameQuality.COMPRESSED m)).width
      (exifTranspose (frames FrameQuality.COMPRESSED m)).height).1
  · exact (thumbnailFit_le (exifTranspose (frames FrameQuality.COMPRESSED m)).width
      (exifTranspose (frames FrameQuality.COMPRESSED m)).height).2

/-- Witness for the C8 theorem: a segment owning frames [4, 6, 8] with
chunk size 2, whose frame 4 decodes at COMPRESSED quality to a 1000 x 500
image with EXIF orientation 6: the preview is that frame transposed to
500 x 1000, thumbnailed to 128 x 256, JPEG-encoded, MIME image/jpeg. -/
theorem segment_preview_serves_lowest_frame_witness :
    prepareSegmentPreview2D (fun _ f => ⟨1000, 500, 6, f⟩)
        ⟨1, .RANGE, 4, [4, 6, 8]⟩ 2 =
      .ok (⟨⟨128, 256, 1, 4⟩, "JPEG"⟩, "image/jpeg") :=
  have hth := segment_preview_serves_lowest_frame (fun _ f => ⟨1000, 500, 6, f⟩)
    ⟨1, .RANGE, 4, [4, 6, 8]⟩ 2 4 (by decide) (by decide)
  hth.1.trans (by rfl)

end Cvat
